import Mathlib

/-!
Shallow embedding of the craftnest-backend listings service (src/index.js).

The backend keeps a single JSON document holding an array of listing
records; every endpoint reads the whole collection, performs an in-memory
array operation, writes the whole collection back when it mutated, and
serializes a response.  Each HTTP handler is embedded as a pure function
from the collection it read (plus the request parameters) to the pair of
the HTTP response and the write it performed (`none` when the handler did
not call `writeListings`).
-/

/-- A JavaScript number: either NaN or a numeric value.  Floating-point
width is not modelled; the values arising in this development are exact
decimals, represented as rationals. -/
inductive JSNum where
  | nan : JSNum
  | val : ℚ → JSNum
  deriving DecidableEq

/-- A JavaScript primitive value, as can appear in a field of a JSON
request body after `express.json()` parsing (objects and arrays in fields
are not modelled; no claim needs them). -/
inductive JSValue where
  | undefined : JSValue
  | null : JSValue
  | bool : Bool → JSValue
  | num : JSNum → JSValue
  | str : String → JSValue
  deriving DecidableEq

/-- JavaScript truthiness: `undefined`, `null`, `false`, `0`, `NaN` and the
empty string are falsy, everything else is truthy.  `!v` in the source is
`!truthy v` here. -/
def truthy : JSValue → Bool
  | .undefined => false
  | .null => false
  | .bool b => b
  | .num .nan => false
  | .num (.val q) => decide (q ≠ 0)
  | .str s => decide (s ≠ "")

/-- Numeric value of a decimal digit character, if it is one. -/
def digit? (c : Char) : Option Nat :=
  if c.isDigit then some (c.toNat - 48) else none

/-- Value of a digit list, most significant digit first; `none` on any
non-digit character. -/
def digitsVal : List Char → Nat → Option Nat
  | [], acc => some acc
  | c :: cs, acc =>
    match digit? c with
    | some d => digitsVal cs (10 * acc + d)
    | none => none

/-- Parse an unsigned decimal literal (`"123"`, `"123.45"`, `".5"`,
`"5."`); `none` when the characters are not such a literal. -/
def parseUnsigned (cs : List Char) : Option ℚ :=
  let ip := cs.takeWhile Char.isDigit
  let rest := cs.dropWhile Char.isDigit
  match rest with
  | [] =>
    if ip.isEmpty then none
    else (digitsVal ip 0).map (fun n => (n : ℚ))
  | '.' :: fp =>
    if fp.all Char.isDigit && !(ip.isEmpty && fp.isEmpty) then
      match digitsVal ip 0, digitsVal fp 0 with
      | some n, some m => some ((n : ℚ) + (m : ℚ) / (10 : ℚ) ^ fp.length)
      | _, _ => none
    else none
  | _ => none

/-- Strip leading and trailing whitespace: the implicit trimming that
JavaScript string-to-number conversion performs before parsing. -/
def trimChars (cs : List Char) : List Char :=
  ((cs.dropWhile Char.isWhitespace).reverse.dropWhile Char.isWhitespace).reverse

/-- JavaScript string-to-number conversion, `Number(s)` for a string `s`:
surrounding whitespace is ignored, the empty string converts to `0`, an
optionally signed decimal literal converts to its value, and anything else
(such as `"abc"`) converts to NaN.  (Hexadecimal, exponent and `Infinity`
forms are not modelled; no input in this development uses them.) -/
def jsStringToNumber (s : String) : JSNum :=
  let t := trimChars s.data
  if t = [] then .val 0
  else
    match t with
    | '+' :: cs =>
      match parseUnsigned cs with
      | some q => .val q
      | none => .nan
    | '-' :: cs =>
      match parseUnsigned cs with
      | some q => .val (-q)
      | none => .nan
    | cs =>
      match parseUnsigned cs with
      | some q => .val q
      | none => .nan

/-- JavaScript `Number(v)` on a primitive value. -/
def jsToNumber : JSValue → JSNum
  | .undefined => .nan
  | .null => .val 0
  | .bool true => .val 1
  | .bool false => .val 0
  | .num n => n
  | .str s => jsStringToNumber s

/-- One listing record of the collection (spec §3; built by the
POST /listings handler in src/index.js).  `title`, `description`,
`contact` and `imageUrl` hold whatever (truthy) value the request
supplied.  `likes` is the integer like counter.  `createdAt` models the
ISO-8601 string `new Date().toISOString()` by the underlying millisecond
clock reading: the ISO encoding of an instant is injective and
order-preserving, so ordering facts about `createdAt` transfer. -/
structure Listing where
  id : String
  title : JSValue
  price : JSNum
  description : JSValue
  contact : JSValue
  imageUrl : JSValue
  likes : Int
  sold : Bool
  createdAt : Nat
  deriving DecidableEq

/-- A serialized response body.  `rawListings` is the bare JSON array sent
by GET /listings, `rawListing` the bare created record sent by
POST /listings; the remaining constructors are the object bodies with an
explicit `success` field. -/
inductive Body where
  | rawListings : List Listing → Body
  | rawListing : Listing → Body
  | msg : Bool → String → Body
  | likeOk : Int → Body
  | buyOk : Body
  | deleteOk : String → Body
  deriving DecidableEq

/-- An HTTP response: status code and serialized body. -/
structure HttpResponse where
  status : Nat
  body : Body
  deriving DecidableEq

/-- The `success` field of a serialized body, when the body carries one:
`{success, message}` carries its flag; the like / buy / delete success
bodies carry `success: true`; the bare array and bare record bodies carry
no `success` field at all. -/
def Body.successField : Body → Option Bool
  | .rawListings _ => none
  | .rawListing _ => none
  | .msg b _ => some b
  | .likeOk _ => some true
  | .buyOk => some true
  | .deleteOk _ => some true

/-- Whether a body is a well-formed failure body: `success: false`
together with a non-empty human-readable `message`. -/
def Body.isFailure : Body → Bool
  | .msg false m => decide (m ≠ "")
  | _ => false

/-- The collection on disk after a handler step: the written collection
when the handler called `writeListings`, the previous contents
otherwise. -/
def persistedAfter (before : List Listing) (w : Option (List Listing)) : List Listing :=
  w.getD before

/-- Linear scan `listings.find(l => l.id === id)` followed by `listing.likes += 1`:
locate the first record with the given id and increment its `likes` in
place; returns the new count and the updated collection, or `none` when no
record matches. -/
def likeUpdate : List Listing → String → Option (Int × List Listing)
  | [], _ => none
  | l :: rest, i =>
    if l.id = i then
      some (l.likes + 1, { l with likes := l.likes + 1 } :: rest)
    else
      match likeUpdate rest i with
      | none => none
      | some (k, rest') => some (k, l :: rest')

/-- POST /listings/:id/like handler (src/index.js lines 115–127). -/
def likeHandler (listings : List Listing) (i : String) :
    HttpResponse × Option (List Listing) :=
  match likeUpdate listings i with
  | none => (⟨404, .msg false "Not found"⟩, none)
  | some (k, listings') => (⟨200, .likeOk k⟩, some listings')

/-- Linear scan `listings.find(l => l.id === id)` followed by `listing.sold = true`:
locate the first record with the given id; returns the record as found
(before mutation, for the `sold` check) together with the collection in
which its `sold` has been set, or `none` when no record matches. -/
def buyUpdate : List Listing → String → Option (Listing × List Listing)
  | [], _ => none
  | l :: rest, i =>
    if l.id = i then
      some (l, { l with sold := true } :: rest)
    else
      match buyUpdate rest i with
      | none => none
      | some (m, rest') => some (m, l :: rest')

/-- POST /listings/:id/buy handler (src/index.js lines 129–142): not
found gives 404; an already sold record gives 400 with no write; otherwise
`sold` is set and the collection persisted. -/
def buyHandler (listings : List Listing) (i : String) :
    HttpResponse × Option (List Listing) :=
  match buyUpdate listings i with
  | none => (⟨404, .msg false "Not found"⟩, none)
  | some (l, listings') =>
    if l.sold then (⟨400, .msg false "Already sold"⟩, none)
    else (⟨200, .buyOk⟩, some listings')

/-- Linear scan `listings.findIndex(l => l.id === id)` followed by
`listings.splice(index, 1)`: remove the first record with the given id;
returns the removed record and the shrunk collection, or `none` when no
record matches. -/
def deleteUpdate : List Listing → String → Option (Listing × List Listing)
  | [], _ => none
  | l :: rest, i =>
    if l.id = i then
      some (l, rest)
    else
      match deleteUpdate rest i with
      | none => none
      | some (r, rest') => some (r, l :: rest')

/-- DELETE /listings/:id handler (src/index.js lines 144–156). -/
def deleteHandler (listings : List Listing) (i : String) :
    HttpResponse × Option (List Listing) :=
  match deleteUpdate listings i with
  | none => (⟨404, .msg false "Not found"⟩, none)
  | some (r, listings') => (⟨200, .deleteOk r.id⟩, some listings')

/-- The body of a POST /listings request, after destructuring. -/
structure CreateRequest where
  title : JSValue
  price : JSValue
  description : JSValue
  contact : JSValue
  imageUrl : JSValue
  deriving DecidableEq

/-- The record built by the POST /listings handler: `nowMs` is the
`Date.now()` clock reading (its decimal rendering becomes the id) and
`tsMs` the `new Date()` clock reading behind `createdAt`. -/
def mkListing (req : CreateRequest) (nowMs tsMs : Nat) : Listing :=
  { id := Nat.repr nowMs
    title := req.title
    price := jsToNumber req.price
    description := req.description
    contact := req.contact
    imageUrl := if truthy req.imageUrl then req.imageUrl else .str ""
    likes := 0
    sold := false
    createdAt := tsMs }

/-- POST /listings handler (src/index.js lines 88–113): the four required
fields are checked for truthiness; on success the new record is appended
to the end of the collection and the collection persisted. -/
def createHandler (listings : List Listing) (req : CreateRequest) (nowMs tsMs : Nat) :
    HttpResponse × Option (List Listing) :=
  if !truthy req.title || !truthy req.price || !truthy req.description || !truthy req.contact then
    (⟨400, .msg false "Missing required fields"⟩, none)
  else
    (⟨201, .rawListing (mkListing req nowMs tsMs)⟩,
      some (listings ++ [mkListing req nowMs tsMs]))

/-- State of the backing document `listings.json`: either present with a
valid serialized collection, or missing / not valid serialized data. -/
inductive StoreState where
  | ok : List Listing → StoreState
  | bad : StoreState
  deriving DecidableEq

/-- The store read failure raised when the document is missing or not
valid serialized data. -/
inductive StoreReadError where
  | storeReadError : StoreReadError
  deriving DecidableEq

/-- Function `readListings` of src/index.js (lines 38–46): the read is wrapped in
try/catch and a failure is substituted with the empty collection. -/
def readListings : StoreState → List Listing
  | .ok xs => xs
  | .bad => []

/-- Function `readListings` of src/unnamed/part_000 (lines 40–43): no catch, the
failure propagates to the caller. -/
def readListingsVariant : StoreState → Except StoreReadError (List Listing)
  | .ok xs => .ok xs
  | .bad => .error .storeReadError

/-- GET /listings handler of src/index.js (lines 78–86): responds with
the bare array; since `readListings` never throws there, the 500 branch is
unreachable and the handler performs no write. -/
def getListingsHandler (s : StoreState) : HttpResponse × Option (List Listing) :=
  (⟨200, .rawListings (readListings s)⟩, none)

/-- GET /listings handler of the src/unnamed/part_000 variant: a read
failure is caught at the handler and surfaced as a 500. -/
def getListingsVariantHandler (s : StoreState) : HttpResponse :=
  match readListingsVariant s with
  | .ok xs => ⟨200, .rawListings xs⟩
  | .error _ => ⟨500, .msg false "Failed to read listings"⟩

/-- POST /contact handler: the outbound relay is an external collaborator,
modelled by whether it succeeded. -/
def contactHandler (relayOk : Bool) : HttpResponse :=
  if relayOk then ⟨200, .msg true "Email sent!"⟩
  else ⟨500, .msg false "Failed to send email"⟩

/-- Iterated likes: `n` sequential like requests on the same id, each applied to the
collection persisted by the previous one. -/
def iterLike (listings : List Listing) (i : String) : Nat → List Listing
  | 0 => listings
  | n + 1 =>
    persistedAfter (iterLike listings i n) (likeHandler (iterLike listings i n) i).2

/-! ### Characterization lemmas for the linear-scan update helpers -/

theorem likeUpdate_append (pre post : List Listing) (l : Listing) (i : String)
    (hpre : ∀ p ∈ pre, p.id ≠ i) (hl : l.id = i) :
    likeUpdate (pre ++ l :: post) i =
      some (l.likes + 1, pre ++ { l with likes := l.likes + 1 } :: post) := by
  induction pre with
  | nil => simp [likeUpdate, hl]
  | cons p pre ih =>
    have hp : p.id ≠ i := hpre p (List.mem_cons_self p pre)
    simp [likeUpdate, if_neg hp,
      ih (fun q hq => hpre q (List.mem_cons_of_mem p hq))]

theorem buyUpdate_append (pre post : List Listing) (l : Listing) (i : String)
    (hpre : ∀ p ∈ pre, p.id ≠ i) (hl : l.id = i) :
    buyUpdate (pre ++ l :: post) i =
      some (l, pre ++ { l with sold := true } :: post) := by
  induction pre with
  | nil => simp [buyUpdate, hl]
  | cons p pre ih =>
    have hp : p.id ≠ i := hpre p (List.mem_cons_self p pre)
    simp [buyUpdate, if_neg hp,
      ih (fun q hq => hpre q (List.mem_cons_of_mem p hq))]

theorem deleteUpdate_append (pre post : List Listing) (l : Listing) (i : String)
    (hpre : ∀ p ∈ pre, p.id ≠ i) (hl : l.id = i) :
    deleteUpdate (pre ++ l :: post) i = some (l, pre ++ post) := by
  induction pre with
  | nil => simp [deleteUpdate, hl]
  | cons p pre ih =>
    have hp : p.id ≠ i := hpre p (List.mem_cons_self p pre)
    simp [deleteUpdate, if_neg hp,
      ih (fun q hq => hpre q (List.mem_cons_of_mem p hq))]

theorem likeUpdate_none (xs : List Listing) (i : String)
    (h : ∀ l ∈ xs, l.id ≠ i) : likeUpdate xs i = none := by
  induction xs with
  | nil => rfl
  | cons x xs ih =>
    simp only [likeUpdate, if_neg (h x (List.mem_cons_self x xs)),
      ih (fun l hl => h l (List.mem_cons_of_mem x hl))]

theorem buyUpdate_none (xs : List Listing) (i : String)
    (h : ∀ l ∈ xs, l.id ≠ i) : buyUpdate xs i = none := by
  induction xs with
  | nil => rfl
  | cons x xs ih =>
    simp only [buyUpdate, if_neg (h x (List.mem_cons_self x xs)),
      ih (fun l hl => h l (List.mem_cons_of_mem x hl))]

theorem deleteUpdate_none (xs : List Listing) (i : String)
    (h : ∀ l ∈ xs, l.id ≠ i) : deleteUpdate xs i = none := by
  induction xs with
  | nil => rfl
  | cons x xs ih =>
    simp only [deleteUpdate, if_neg (h x (List.mem_cons_self x xs)),
      ih (fun l hl => h l (List.mem_cons_of_mem x hl))]

/-- A sample concrete listing, used by the witness theorems. -/
def sampleListing : Listing :=
  { id := "1", title := .str "Lamp", price := .val 20, description := .str "IKEA",
    contact := .str "a@b.com", imageUrl := .str "", likes := 0, sold := false,
    createdAt := 0 }

/-- C1: on an id present in the collection, a buy whose first matching
record is unsold sets that record's `sold` to true and persists the
collection; a buy on an already sold record fails with 400
"Already sold" and performs no write, so a second buy on the same id
leaves `sold = true` with no further side effect. -/
theorem buy_spec (pre post : List Listing) (l : Listing) (i : String)
    (hpre : ∀ p ∈ pre, p.id ≠ i) (hl : l.id = i) :
    (l.sold = false →
      buyHandler (pre ++ l :: post) i =
        (⟨200, .buyOk⟩, some (pre ++ { l with sold := true } :: post)) ∧
      buyHandler (pre ++ { l with sold := true } :: post) i =
        (⟨400, .msg false "Already sold"⟩, none)) ∧
    (l.sold = true →
      buyHandler (pre ++ l :: post) i = (⟨400, .msg false "Already sold"⟩, none)) := by
  refine ⟨fun hsold => ⟨?_, ?_⟩, fun hsold => ?_⟩
  · simp [buyHandler, buyUpdate_append pre post l i hpre hl, hsold]
  · simp [buyHandler, buyUpdate_append pre post { l with sold := true } i hpre hl]
  · simp [buyHandler, buyUpdate_append pre post l i hpre hl, hsold]

/-- C1 witness: the buy transition on a concrete one-element collection. -/
theorem buy_spec_witness :
    (∀ p ∈ ([] : List Listing), p.id ≠ "1") ∧ sampleListing.id = "1" ∧
    ((sampleListing.sold = false →
      buyHandler ([] ++ sampleListing :: []) "1" =
        (⟨200, .buyOk⟩, some ([] ++ { sampleListing with sold := true } :: [])) ∧
      buyHandler ([] ++ { sampleListing with sold := true } :: []) "1" =
        (⟨400, .msg false "Already sold"⟩, none)) ∧
    (sampleListing.sold = true →
      buyHandler ([] ++ sampleListing :: []) "1" =
        (⟨400, .msg false "Already sold"⟩, none))) :=
  ⟨by simp, rfl, buy_spec [] [] sampleListing "1" (by simp) rfl⟩

/-- Sequential likes on a decomposed collection: each round finds the same
(first-matching) record and adds one to its `likes`. -/
theorem iterLike_append (pre post : List Listing) (l : Listing) (i : String)
    (hpre : ∀ p ∈ pre, p.id ≠ i) (hl : l.id = i) :
    ∀ n : Nat, iterLike (pre ++ l :: post) i n =
      pre ++ { l with likes := l.likes + (n : Int) } :: post := by
  intro n
  induction n with
  | zero => simp [iterLike]
  | succ n ih =>
    rw [iterLike, ih]
    simp [likeHandler,
      likeUpdate_append pre post { l with likes := l.likes + (n : Int) } i hpre hl,
      persistedAfter, add_assoc]

/-- C2: a like on an id present in the collection increments the first
matching record's `likes` by exactly one, leaves all its other fields and
every other record unchanged, persists the updated collection and returns
the new count; `n` sequential likes add `n`, so starting from `likes = 0`
they yield `likes = n`. -/
theorem like_spec (pre post : List Listing) (l : Listing) (i : String)
    (hpre : ∀ p ∈ pre, p.id ≠ i) (hl : l.id = i) :
    likeHandler (pre ++ l :: post) i =
      (⟨200, .likeOk (l.likes + 1)⟩,
        some (pre ++ { l with likes := l.likes + 1 } :: post)) ∧
    (∀ n : Nat, iterLike (pre ++ l :: post) i n =
      pre ++ { l with likes := l.likes + (n : Int) } :: post) ∧
    (l.likes = 0 → ∀ n : Nat, iterLike (pre ++ l :: post) i n =
      pre ++ { l with likes := (n : Int) } :: post) := by
  refine ⟨?_, iterLike_append pre post l i hpre hl, fun h0 n => ?_⟩
  · simp [likeHandler, likeUpdate_append pre post l i hpre hl]
  · rw [iterLike_append pre post l i hpre hl n, h0, zero_add]

/-- C2 witness: likes on a concrete one-element collection. -/
theorem like_spec_witness :
    (∀ p ∈ ([] : List Listing), p.id ≠ "1") ∧ sampleListing.id = "1" ∧
    (likeHandler ([] ++ sampleListing :: []) "1" =
      (⟨200, .likeOk (sampleListing.likes + 1)⟩,
        some ([] ++ { sampleListing with likes := sampleListing.likes + 1 } :: [])) ∧
    (∀ n : Nat, iterLike ([] ++ sampleListing :: []) "1" n =
      [] ++ { sampleListing with likes := sampleListing.likes + (n : Int) } :: []) ∧
    (sampleListing.likes = 0 → ∀ n : Nat, iterLike ([] ++ sampleListing :: []) "1" n =
      [] ++ { sampleListing with likes := (n : Int) } :: [])) :=
  ⟨by simp, rfl, like_spec [] [] sampleListing "1" (by simp) rfl⟩

/-! ### Non-emptiness of the generated id (`Date.now().toString()`) -/

theorem toDigitsCore_length_le (b : Nat) :
    ∀ (f n : Nat) (l : List Char), l.length ≤ (Nat.toDigitsCore b f n l).length := by
  intro f
  induction f with
  | zero => intro n l; exact Nat.le_refl _
  | succ f ih =>
    intro n l
    simp only [Nat.toDigitsCore]
    split
    · exact Nat.le_succ _
    · exact Nat.le_trans (Nat.le_succ _) (ih (n / b) ((n % b).digitChar :: l))

theorem toDigits_ten_ne_nil (n : Nat) : Nat.toDigits 10 n ≠ [] := by
  show Nat.toDigitsCore 10 (n + 1) n [] ≠ []
  simp only [Nat.toDigitsCore]
  split
  · simp
  · intro h
    have hle := toDigitsCore_length_le 10 n (n / 10) [Nat.digitChar (n % 10)]
    rw [h] at hle
    simp at hle

/-- The decimal rendering of a natural number is never the empty string,
so the generated listing id is non-empty. -/
theorem natRepr_ne_empty (n : Nat) : Nat.repr n ≠ "" := by
  intro h
  exact toDigits_ten_ne_nil n (congrArg String.data h)

/-- C3: a create request with all four required fields truthy succeeds,
returns a record with `likes = 0`, `sold = false`, a non-empty id,
`imageUrl` defaulting to the empty string when absent, and a `createdAt`
clock reading not earlier than the request time (the handler's clock reads
follow the request's arrival), and appends exactly that record to the end
of the collection in the write it performs. -/
theorem create_spec (listings : List Listing) (req : CreateRequest)
    (nowMs tsMs reqTime : Nat)
    (ht : truthy req.title = true) (hp : truthy req.price = true)
    (hd : truthy req.description = true) (hc : truthy req.contact = true)
    (hclock : reqTime ≤ tsMs) :
    createHandler listings req nowMs tsMs =
      (⟨201, .rawListing (mkListing req nowMs tsMs)⟩,
        some (listings ++ [mkListing req nowMs tsMs])) ∧
    (mkListing req nowMs tsMs).likes = 0 ∧
    (mkListing req nowMs tsMs).sold = false ∧
    (mkListing req nowMs tsMs).id ≠ "" ∧
    (req.imageUrl = .undefined → (mkListing req nowMs tsMs).imageUrl = .str "") ∧
    reqTime ≤ (mkListing req nowMs tsMs).createdAt := by
  refine ⟨?_, rfl, rfl, natRepr_ne_empty nowMs, fun h => ?_, hclock⟩
  · simp [createHandler, ht, hp, hd, hc]
  · simp [mkListing, h, truthy]

/-- A concrete valid create request, used by the witnesses. -/
def sampleCreateRequest : CreateRequest :=
  { title := .str "Lamp", price := .num (.val 20), description := .str "IKEA",
    contact := .str "a@b.com", imageUrl := .undefined }

/-- C3 witness: a concrete create at clock readings 7 and 5 for a request
arriving at 3. -/
theorem create_spec_witness :
    truthy sampleCreateRequest.title = true ∧
    truthy sampleCreateRequest.price = true ∧
    truthy sampleCreateRequest.description = true ∧
    truthy sampleCreateRequest.contact = true ∧
    (3 : Nat) ≤ 5 ∧
    (createHandler [] sampleCreateRequest 7 5 =
      (⟨201, .rawListing (mkListing sampleCreateRequest 7 5)⟩,
        some ([] ++ [mkListing sampleCreateRequest 7 5])) ∧
    (mkListing sampleCreateRequest 7 5).likes = 0 ∧
    (mkListing sampleCreateRequest 7 5).sold = false ∧
    (mkListing sampleCreateRequest 7 5).id ≠ "" ∧
    (sampleCreateRequest.imageUrl = .undefined →
      (mkListing sampleCreateRequest 7 5).imageUrl = .str "") ∧
    3 ≤ (mkListing sampleCreateRequest 7 5).createdAt) :=
  ⟨by decide, by decide, by decide, by decide, by decide,
    create_spec [] sampleCreateRequest 7 5 3
      (by decide) (by decide) (by decide) (by decide) (by decide)⟩

/-- C4: a create request in which any required field is falsy (absent,
null, empty string, NaN or the number 0 — in particular a numeric price of
0) fails with 400 "Missing required fields" and performs no write; the
trailing conjuncts record that the listed values are indeed falsy. -/
theorem create_invalid_spec (listings : List Listing) (req : CreateRequest)
    (nowMs tsMs : Nat)
    (h : truthy req.title = false ∨ truthy req.price = false ∨
      truthy req.description = false ∨ truthy req.contact = false) :
    createHandler listings req nowMs tsMs =
      (⟨400, .msg false "Missing required fields"⟩, none) ∧
    truthy (.num (.val 0)) = false ∧ truthy .undefined = false ∧
    truthy .null = false ∧ truthy (.str "") = false := by
  refine ⟨?_, by decide, by decide, by decide, by decide⟩
  rcases h with h | h | h | h <;> simp [createHandler, h]

/-- A concrete create request whose price is the (falsy) number 0. -/
def zeroPriceRequest : CreateRequest :=
  { title := .str "Lamp", price := .num (.val 0), description := .str "IKEA",
    contact := .str "a@b.com", imageUrl := .undefined }

/-- C4 witness: a create with numeric price 0 is rejected with no write. -/
theorem create_invalid_spec_witness :
    (truthy zeroPriceRequest.title = false ∨ truthy zeroPriceRequest.price = false ∨
      truthy zeroPriceRequest.description = false ∨
      truthy zeroPriceRequest.contact = false) ∧
    (createHandler [] zeroPriceRequest 7 5 =
      (⟨400, .msg false "Missing required fields"⟩, none) ∧
    truthy (.num (.val 0)) = false ∧ truthy .undefined = false ∧
    truthy .null = false ∧ truthy (.str "") = false) :=
  ⟨Or.inr (Or.inl (by decide)),
    create_invalid_spec [] zeroPriceRequest 7 5 (Or.inr (Or.inl (by decide)))⟩

/-- C5: a delete on an id present in the collection removes exactly the
first matching record, shrinks the collection by exactly one, keeps every
remaining record in its relative order, returns the removed id, and — ids
being unique in the collection — a second delete of the same id fails with
404 "Not found" and no write. -/
theorem delete_spec (pre post : List Listing) (l : Listing) (i : String)
    (hpre : ∀ p ∈ pre, p.id ≠ i) (hl : l.id = i)
    (hpost : ∀ p ∈ post, p.id ≠ i) :
    deleteHandler (pre ++ l :: post) i =
      (⟨200, .deleteOk l.id⟩, some (pre ++ post)) ∧
    (pre ++ post).length + 1 = (pre ++ l :: post).length ∧
    deleteHandler (pre ++ post) i = (⟨404, .msg false "Not found"⟩, none) := by
  refine ⟨?_, ?_, ?_⟩
  · simp [deleteHandler, deleteUpdate_append pre post l i hpre hl]
  · simp [List.length_append]
    omega
  · have hall : ∀ p ∈ pre ++ post, p.id ≠ i := by
      intro p hp
      rcases List.mem_append.mp hp with hmem | hmem
      · exact hpre p hmem
      · exact hpost p hmem
    simp [deleteHandler, deleteUpdate_none (pre ++ post) i hall]

/-- C5 witness: delete then re-delete on a concrete collection. -/
theorem delete_spec_witness :
    (∀ p ∈ ([] : List Listing), p.id ≠ "1") ∧ sampleListing.id = "1" ∧
    (∀ p ∈ ([] : List Listing), p.id ≠ "1") ∧
    (deleteHandler ([] ++ sampleListing :: []) "1" =
      (⟨200, .deleteOk sampleListing.id⟩, some ([] ++ [])) ∧
    (([] : List Listing) ++ []).length + 1 = ([] ++ sampleListing :: []).length ∧
    deleteHandler ([] ++ []) "1" = (⟨404, .msg false "Not found"⟩, none)) :=
  ⟨by simp, rfl, by simp, delete_spec [] [] sampleListing "1" (by simp) rfl (by simp)⟩

/-- C6: a like, buy or delete on an id matching no record fails with 404
"Not found" and performs no write, so the persisted collection is exactly
what it was. -/
theorem notFound_spec (listings : List Listing) (i : String)
    (h : ∀ l ∈ listings, l.id ≠ i) :
    likeHandler listings i = (⟨404, .msg false "Not found"⟩, none) ∧
    buyHandler listings i = (⟨404, .msg false "Not found"⟩, none) ∧
    deleteHandler listings i = (⟨404, .msg false "Not found"⟩, none) ∧
    persistedAfter listings (likeHandler listings i).2 = listings ∧
    persistedAfter listings (buyHandler listings i).2 = listings ∧
    persistedAfter listings (deleteHandler listings i).2 = listings := by
  have h1 := likeUpdate_none listings i h
  have h2 := buyUpdate_none listings i h
  have h3 := deleteUpdate_none listings i h
  simp [likeHandler, buyHandler, deleteHandler, persistedAfter, h1, h2, h3]

/-- C6 witness: the three handlers at an id absent from a concrete
collection. -/
theorem notFound_spec_witness :
    (∀ l ∈ [sampleListing], l.id ≠ "2") ∧
    (likeHandler [sampleListing] "2" = (⟨404, .msg false "Not found"⟩, none) ∧
    buyHandler [sampleListing] "2" = (⟨404, .msg false "Not found"⟩, none) ∧
    deleteHandler [sampleListing] "2" = (⟨404, .msg false "Not found"⟩, none) ∧
    persistedAfter [sampleListing] (likeHandler [sampleListing] "2").2 = [sampleListing] ∧
    persistedAfter [sampleListing] (buyHandler [sampleListing] "2").2 = [sampleListing] ∧
    persistedAfter [sampleListing] (deleteHandler [sampleListing] "2").2 = [sampleListing]) :=
  ⟨by decide, notFound_spec [sampleListing] "2" (by decide)⟩

/-! ### Monotone evolution of the collection (spec §3 invariants) -/

/-- Pairwise-distinct record ids: the spec §3 invariant that `id`
uniqueness holds for the lifetime of the collection. -/
def UniqueIds (xs : List Listing) : Prop :=
  List.Pairwise (fun a b => a.id ≠ b.id) xs

/-- Monotone evolution of the collection, keyed by record id: every
record of the new collection that shares its id with a record of the old
collection has kept `sold` once it was true and has not decreased
`likes`.  A step that flips some record's `sold` back to false, or lowers
its `likes`, while keeping its id, violates this relation. -/
def MonotoneStep (old new : List Listing) : Prop :=
  ∀ l ∈ old, ∀ l' ∈ new, l.id = l'.id →
    (l.sold = true → l'.sold = true) ∧ l.likes ≤ l'.likes

/-- Under id uniqueness, two members of the collection with the same id
are the same record. -/
theorem eq_of_mem_of_id_eq {xs : List Listing} (huniq : UniqueIds xs)
    {l l' : Listing} (hl : l ∈ xs) (hl' : l' ∈ xs) (h : l.id = l'.id) :
    l = l' := by
  induction xs with
  | nil => cases hl
  | cons x t ih =>
    rcases List.pairwise_cons.mp huniq with ⟨hx, ht⟩
    rcases List.mem_cons.mp hl with rfl | hl2
    · rcases List.mem_cons.mp hl' with rfl | hl2'
      · rfl
      · exact absurd h (hx l' hl2')
    · rcases List.mem_cons.mp hl' with rfl | hl2'
      · exact absurd h.symm (hx l hl2)
      · exact ih ht hl2 hl2'

theorem monotoneStep_refl {xs : List Listing} (huniq : UniqueIds xs) :
    MonotoneStep xs xs := by
  intro l hl l' hl' h
  obtain rfl := eq_of_mem_of_id_eq huniq hl hl' h
  exact ⟨fun hs => hs, le_refl _⟩

/-- Every record of the collection written by a successful like is either
a record of the old collection or an old record with its `likes` bumped
by one. -/
theorem likeUpdate_mem (xs : List Listing) (i : String) :
    ∀ (k : Int) (ys : List Listing), likeUpdate xs i = some (k, ys) →
      ∀ b ∈ ys, b ∈ xs ∨ ∃ m ∈ xs, b = { m with likes := m.likes + 1 } := by
  induction xs with
  | nil => intro k ys h; simp [likeUpdate] at h
  | cons x t ih =>
    intro k ys h
    simp only [likeUpdate] at h
    split at h
    · rw [Option.some.injEq, Prod.mk.injEq] at h
      rcases h with ⟨-, hys⟩
      subst hys
      intro b hb
      rcases List.mem_cons.mp hb with rfl | hb2
      · exact Or.inr ⟨x, List.mem_cons_self x t, rfl⟩
      · exact Or.inl (List.mem_cons_of_mem x hb2)
    · rcases hrec : likeUpdate t i with _ | p
      · rw [hrec] at h; simp at h
      · rcases p with ⟨k', ys'⟩
        rw [hrec] at h
        simp only [Option.some.injEq, Prod.mk.injEq] at h
        rcases h with ⟨-, hys⟩
        subst hys
        intro b hb
        rcases List.mem_cons.mp hb with rfl | hb2
        · exact Or.inl (List.mem_cons_self b t)
        · rcases ih k' ys' hrec b hb2 with h1 | ⟨m, hm, hbm⟩
          · exact Or.inl (List.mem_cons_of_mem x h1)
          · exact Or.inr ⟨m, List.mem_cons_of_mem x hm, hbm⟩

/-- Every record of the collection written by a successful buy is either
a record of the old collection or an old record with `sold` set. -/
theorem buyUpdate_mem (xs : List Listing) (i : String) :
    ∀ (l : Listing) (ys : List Listing), buyUpdate xs i = some (l, ys) →
      ∀ b ∈ ys, b ∈ xs ∨ ∃ m ∈ xs, b = { m with sold := true } := by
  induction xs with
  | nil => intro l ys h; simp [buyUpdate] at h
  | cons x t ih =>
    intro l ys h
    simp only [buyUpdate] at h
    split at h
    · rw [Option.some.injEq, Prod.mk.injEq] at h
      rcases h with ⟨-, hys⟩
      subst hys
      intro b hb
      rcases List.mem_cons.mp hb with rfl | hb2
      · exact Or.inr ⟨x, List.mem_cons_self x t, rfl⟩
      · exact Or.inl (List.mem_cons_of_mem x hb2)
    · rcases hrec : buyUpdate t i with _ | p
      · rw [hrec] at h; simp at h
      · rcases p with ⟨m', ys'⟩
        rw [hrec] at h
        simp only [Option.some.injEq, Prod.mk.injEq] at h
        rcases h with ⟨-, hys⟩
        subst hys
        intro b hb
        rcases List.mem_cons.mp hb with rfl | hb2
        · exact Or.inl (List.mem_cons_self b t)
        · rcases ih m' ys' hrec b hb2 with h1 | ⟨m, hm, hbm⟩
          · exact Or.inl (List.mem_cons_of_mem x h1)
          · exact Or.inr ⟨m, List.mem_cons_of_mem x hm, hbm⟩

/-- Every record of the collection written by a successful delete is a
record of the old collection. -/
theorem deleteUpdate_subset (xs : List Listing) (i : String) :
    ∀ (r : Listing) (ys : List Listing), deleteUpdate xs i = some (r, ys) →
      ∀ b ∈ ys, b ∈ xs := by
  induction xs with
  | nil => intro r ys h; simp [deleteUpdate] at h
  | cons x t ih =>
    intro r ys h
    simp only [deleteUpdate] at h
    split at h
    · rw [Option.some.injEq, Prod.mk.injEq] at h
      rcases h with ⟨-, hys⟩
      subst hys
      intro b hb
      exact List.mem_cons_of_mem x hb
    · rcases hrec : deleteUpdate t i with _ | p
      · rw [hrec] at h; simp at h
      · rcases p with ⟨r', ys'⟩
        rw [hrec] at h
        simp only [Option.some.injEq, Prod.mk.injEq] at h
        rcases h with ⟨-, hys⟩
        subst hys
        intro b hb
        rcases List.mem_cons.mp hb with rfl | hb2
        · exact List.mem_cons_self b t
        · exact List.mem_cons_of_mem x (ih r' ys' hrec b hb2)

/-- C7: under the spec's id-uniqueness invariant, every one of the five
operations (list, create, like, buy, delete) evolves the persisted
collection monotonically per record id: no record with a given id ever
has `sold` changed from true back to false, and no record's `likes`
decreases — like adds one, buy only sets `sold` to true, and list, create
(its generated id being fresh) and delete leave surviving records
untouched. -/
theorem monotonic_invariants_spec (xs : List Listing) (huniq : UniqueIds xs) :
    (∀ s : StoreState, UniqueIds (readListings s) →
      MonotoneStep (readListings s)
        (persistedAfter (readListings s) (getListingsHandler s).2)) ∧
    (∀ (req : CreateRequest) (nowMs tsMs : Nat),
      (∀ l ∈ xs, l.id ≠ Nat.repr nowMs) →
      MonotoneStep xs (persistedAfter xs (createHandler xs req nowMs tsMs).2)) ∧
    (∀ i : String, MonotoneStep xs (persistedAfter xs (likeHandler xs i).2)) ∧
    (∀ i : String, MonotoneStep xs (persistedAfter xs (buyHandler xs i).2)) ∧
    (∀ i : String, MonotoneStep xs (persistedAfter xs (deleteHandler xs i).2)) := by
  refine ⟨fun s hs => monotoneStep_refl hs, fun req nowMs tsMs hfresh => ?_,
    fun i => ?_, fun i => ?_, fun i => ?_⟩
  · cases hif : (!truthy req.title || !truthy req.price ||
        !truthy req.description || !truthy req.contact) with
    | false =>
      simp only [createHandler, hif, Bool.false_eq_true, if_false, persistedAfter,
        Option.getD_some]
      intro a ha b hb hid
      rcases List.mem_append.mp hb with hbxs | hbnew
      · obtain rfl := eq_of_mem_of_id_eq huniq ha hbxs hid
        exact ⟨fun h => h, le_refl _⟩
      · rw [List.mem_singleton.mp hbnew] at hid
        exact absurd hid (hfresh a ha)
    | true =>
      simp only [createHandler, hif, if_true, persistedAfter, Option.getD_none]
      exact monotoneStep_refl huniq
  · rcases hrec : likeUpdate xs i with _ | ⟨k, ys⟩
    · simp only [likeHandler, hrec, persistedAfter, Option.getD_none]
      exact monotoneStep_refl huniq
    · simp only [likeHandler, hrec, persistedAfter, Option.getD_some]
      intro a ha b hb hid
      rcases likeUpdate_mem xs i k ys hrec b hb with hbxs | ⟨m, hm, hbm⟩
      · obtain rfl := eq_of_mem_of_id_eq huniq ha hbxs hid
        exact ⟨fun h => h, le_refl _⟩
      · subst hbm
        obtain rfl := eq_of_mem_of_id_eq huniq ha hm hid
        refine ⟨fun h => h, ?_⟩
        show a.likes ≤ a.likes + 1
        omega
  · rcases hrec : buyUpdate xs i with _ | ⟨l, ys⟩
    · simp only [buyHandler, hrec, persistedAfter, Option.getD_none]
      exact monotoneStep_refl huniq
    · cases hs : l.sold with
      | true =>
        simp only [buyHandler, hrec, hs, if_true, persistedAfter, Option.getD_none]
        exact monotoneStep_refl huniq
      | false =>
        simp only [buyHandler, hrec, hs, Bool.false_eq_true, if_false, persistedAfter,
          Option.getD_some]
        intro a ha b hb hid
        rcases buyUpdate_mem xs i l ys hrec b hb with hbxs | ⟨m, hm, hbm⟩
        · obtain rfl := eq_of_mem_of_id_eq huniq ha hbxs hid
          exact ⟨fun h => h, le_refl _⟩
        · subst hbm
          obtain rfl := eq_of_mem_of_id_eq huniq ha hm hid
          exact ⟨fun _ => rfl, le_refl _⟩
  · rcases hrec : deleteUpdate xs i with _ | ⟨r, ys⟩
    · simp only [deleteHandler, hrec, persistedAfter, Option.getD_none]
      exact monotoneStep_refl huniq
    · simp only [deleteHandler, hrec, persistedAfter, Option.getD_some]
      intro a ha b hb hid
      obtain rfl := eq_of_mem_of_id_eq huniq ha (deleteUpdate_subset xs i r ys hrec b hb) hid
      exact ⟨fun h => h, le_refl _⟩

/-- C7 witness: the invariants at a concrete one-record collection. -/
theorem monotonic_invariants_spec_witness :
    UniqueIds [sampleListing] ∧
    ((∀ s : StoreState, UniqueIds (readListings s) →
      MonotoneStep (readListings s)
        (persistedAfter (readListings s) (getListingsHandler s).2)) ∧
    (∀ (req : CreateRequest) (nowMs tsMs : Nat),
      (∀ l ∈ [sampleListing], l.id ≠ Nat.repr nowMs) →
      MonotoneStep [sampleListing]
        (persistedAfter [sampleListing] (createHandler [sampleListing] req nowMs tsMs).2)) ∧
    (∀ i : String, MonotoneStep [sampleListing]
      (persistedAfter [sampleListing] (likeHandler [sampleListing] i).2)) ∧
    (∀ i : String, MonotoneStep [sampleListing]
      (persistedAfter [sampleListing] (buyHandler [sampleListing] i).2)) ∧
    (∀ i : String, MonotoneStep [sampleListing]
      (persistedAfter [sampleListing] (deleteHandler [sampleListing] i).2))) :=
  ⟨by simp [UniqueIds], monotonic_invariants_spec [sampleListing] (by simp [UniqueIds])⟩

/-- C8 counterexample: in src/index.js a missing or corrupt backing
document does not make the read fail — `readListings` substitutes the
empty collection, so GET /listings answers 200 with an empty array, not
500. -/
theorem read_failure_counterexample :
    readListings .bad = [] ∧
    getListingsHandler .bad = (⟨200, .rawListings []⟩, none) ∧
    ¬(getListingsHandler .bad).1.status = 500 :=
  ⟨rfl, rfl, by decide⟩

/-- C8 amended: in src/index.js the read failure on a missing or invalid
document is caught inside `readListings` and substituted with the empty
collection, so List answers 200 with an empty array; in the
src/unnamed/part_000 variant `readListings` propagates the failure as a
`StoreReadError` and List surfaces it as an HTTP 500 read failure. -/
theorem read_failure_spec :
    readListings .bad = [] ∧
    getListingsHandler .bad = (⟨200, .rawListings []⟩, none) ∧
    readListingsVariant .bad = .error .storeReadError ∧
    getListingsVariantHandler .bad = ⟨500, .msg false "Failed to read listings"⟩ :=
  ⟨rfl, rfl, rfl, rfl⟩

/-- C9 counterexample: the success response of GET /listings is the bare
array, whose body carries no `success` field at all (and likewise the 201
body of POST /listings is the bare created record). -/
theorem success_body_counterexample :
    (getListingsHandler (.ok [])).1.status = 200 ∧
    Body.successField (getListingsHandler (.ok [])).1.body = none ∧
    (createHandler [] sampleCreateRequest 7 5).1.status = 201 ∧
    Body.successField (createHandler [] sampleCreateRequest 7 5).1.body = none := by
  refine ⟨rfl, rfl, ?_, ?_⟩ <;> decide

/-- C9 amended: every failure response carries `success: false` with a
non-empty human-readable message, and the success responses of like, buy,
delete and contact carry `success: true`; but the success responses of
list and create are the bare array and the bare created record, which
carry no `success` field. -/
theorem response_body_spec :
    (∀ s : StoreState, (getListingsHandler s).1.status = 200 ∧
      Body.successField (getListingsHandler s).1.body = none) ∧
    (∀ (xs : List Listing) (req : CreateRequest) (nowMs tsMs : Nat),
      ((createHandler xs req nowMs tsMs).1.status = 201 ∧
        Body.successField (createHandler xs req nowMs tsMs).1.body = none) ∨
      ((createHandler xs req nowMs tsMs).1.status = 400 ∧
        Body.isFailure (createHandler xs req nowMs tsMs).1.body = true)) ∧
    (∀ (xs : List Listing) (i : String),
      ((likeHandler xs i).1.status = 200 ∧
        Body.successField (likeHandler xs i).1.body = some true) ∨
      ((likeHandler xs i).1.status = 404 ∧
        Body.isFailure (likeHandler xs i).1.body = true)) ∧
    (∀ (xs : List Listing) (i : String),
      ((buyHandler xs i).1.status = 200 ∧
        Body.successField (buyHandler xs i).1.body = some true) ∨
      (((buyHandler xs i).1.status = 404 ∨ (buyHandler xs i).1.status = 400) ∧
        Body.isFailure (buyHandler xs i).1.body = true)) ∧
    (∀ (xs : List Listing) (i : String),
      ((deleteHandler xs i).1.status = 200 ∧
        Body.successField (deleteHandler xs i).1.body = some true) ∨
      ((deleteHandler xs i).1.status = 404 ∧
        Body.isFailure (deleteHandler xs i).1.body = true)) ∧
    (∀ ok : Bool,
      ((contactHandler ok).status = 200 ∧
        Body.successField (contactHandler ok).body = some true) ∨
      ((contactHandler ok).status = 500 ∧
        Body.isFailure (contactHandler ok).body = true)) ∧
    (∀ s : StoreState,
      ((getListingsVariantHandler s).status = 200 ∧
        Body.successField (getListingsVariantHandler s).body = none) ∨
      ((getListingsVariantHandler s).status = 500 ∧
        Body.isFailure (getListingsVariantHandler s).body = true)) := by
  refine ⟨fun s => ⟨rfl, rfl⟩, fun xs req nowMs tsMs => ?_, fun xs i => ?_,
    fun xs i => ?_, fun xs i => ?_, fun ok => ?_, fun s => ?_⟩
  · cases hif : (!truthy req.title || !truthy req.price ||
        !truthy req.description || !truthy req.contact) with
    | false =>
      left
      simp [createHandler, hif, Body.successField]
    | true =>
      right
      simp [createHandler, hif, Body.isFailure]
  · rcases hrec : likeUpdate xs i with _ | ⟨k, ys⟩
    · right
      simp [likeHandler, hrec, Body.isFailure]
    · left
      simp [likeHandler, hrec, Body.successField]
  · rcases hrec : buyUpdate xs i with _ | ⟨l, ys⟩
    · right
      simp [buyHandler, hrec, Body.isFailure]
    · cases hs : l.sold with
      | true =>
        right
        simp [buyHandler, hrec, hs, Body.isFailure]
      | false =>
        left
        simp [buyHandler, hrec, hs, Body.successField]
  · rcases hrec : deleteUpdate xs i with _ | ⟨r, ys⟩
    · right
      simp [deleteHandler, hrec, Body.isFailure]
    · left
      simp [deleteHandler, hrec, Body.successField]
  · cases ok with
    | true => left; simp [contactHandler, Body.successField]
    | false => right; simp [contactHandler, Body.isFailure]
  · cases s with
    | ok xs => left; exact ⟨rfl, rfl⟩
    | bad => right; refine ⟨rfl, by decide⟩

/-- C10: a create whose price field is a non-empty string that does not
convert to a number passes validation — the check tests only truthiness,
never numeric validity — and the record appended and persisted has
`price = Number(price) = NaN`. -/
theorem nan_price_spec (listings : List Listing) (req : CreateRequest)
    (nowMs tsMs : Nat) (s : String)
    (hps : req.price = .str s) (hs : s ≠ "")
    (hnan : jsStringToNumber s = .nan)
    (ht : truthy req.title = true) (hd : truthy req.description = true)
    (hc : truthy req.contact = true) :
    createHandler listings req nowMs tsMs =
      (⟨201, .rawListing (mkListing req nowMs tsMs)⟩,
        some (listings ++ [mkListing req nowMs tsMs])) ∧
    (mkListing req nowMs tsMs).price = .nan := by
  have hp : truthy req.price = true := by
    rw [hps]
    simp [truthy, hs]
  refine ⟨?_, ?_⟩
  · simp [createHandler, ht, hp, hd, hc]
  · simp [mkListing, hps, jsToNumber, hnan]

/-- A concrete create request whose price is the string "abc". -/
def nanPriceRequest : CreateRequest :=
  { title := .str "Lamp", price := .str "abc", description := .str "IKEA",
    contact := .str "a@b.com", imageUrl := .undefined }

/-- C10 witness: the create with price "abc" is accepted and the appended
record's price is NaN. -/
theorem nan_price_spec_witness :
    nanPriceRequest.price = .str "abc" ∧ "abc" ≠ "" ∧
    jsStringToNumber "abc" = .nan ∧
    truthy nanPriceRequest.title = true ∧
    truthy nanPriceRequest.description = true ∧
    truthy nanPriceRequest.contact = true ∧
    (createHandler [] nanPriceRequest 7 5 =
      (⟨201, .rawListing (mkListing nanPriceRequest 7 5)⟩,
        some ([] ++ [mkListing nanPriceRequest 7 5])) ∧
    (mkListing nanPriceRequest 7 5).price = .nan) :=
  ⟨rfl, by decide, by decide, by decide, by decide, by decide,
    nan_price_spec [] nanPriceRequest 7 5 "abc" rfl (by decide) (by decide)
      (by decide) (by decide) (by decide)⟩
